import Mathlib

/-!
# Verification of the lightFX LIFX controller (`lifx_controller.py`)

A shallow embedding of the script's registry, validators, retry engine and
command engine, with theorems settling the specification's claims.

Conventions of the embedding:
* the persisted config file is an `Option String` (`none` = file absent);
* the Python dict `self.config['devices']` is an insertion-ordered association
  list with distinct keys (`Registry`);
* exceptions are explicit result constructors; the external `lifxlan`
  transport is a `World` of response functions, and every transport call is
  logged as a `TEvent` so that claims about call order are statable;
* CLI string arguments to `setBrightness`/`setColor` are modelled after the
  `int(...)` conversion, as `Int`s (the claims quantify over parameter values).
-/

namespace Lifx

/-- `MAX_RETRIES = 3` (line 11 of the script). -/
def MAX_RETRIES : Nat := 3

/-- `RETRY_DELAY = 1` second (line 12 of the script). -/
def RETRY_DELAY : Nat := 1

/-! ## Python string primitives

The Lean `String` library implements `toLower`, `trim`, `split` and `toNat?`
through UTF-8 byte positions and well-founded recursion, which the kernel
cannot evaluate; the embedding therefore uses direct structural definitions
over the character list.  They model the Python methods for the ASCII range,
which covers MAC/IP strings and the claims' device names. -/

/-- Python `str.lower` (ASCII range). -/
def pyLower (s : String) : String := ⟨s.data.map Char.toLower⟩

/-- Python `str.strip()`: remove leading and trailing whitespace. -/
def pyStrip (s : String) : String :=
  ⟨((s.data.dropWhile Char.isWhitespace).reverse.dropWhile Char.isWhitespace).reverse⟩

/-- Python `str.split(sep)` for a one-character separator: splitting the empty
string gives `[""]`, and adjacent separators give empty parts. -/
def splitOn (sep : Char) : List Char → List (List Char)
  | [] => [[]]
  | c :: rest =>
      if c = sep then [] :: splitOn sep rest
      else
        match splitOn sep rest with
        | g :: gs => (c :: g) :: gs
        | [] => [[c]]

/-! ## AddressValidator: `is_valid_mac`, `is_valid_ip` -/

/-- The character class `[0-9A-Fa-f]` of the MAC regex. -/
def isHexDigit (c : Char) : Bool :=
  (('0' ≤ c) && (c ≤ '9')) || (('A' ≤ c) && (c ≤ 'F')) || (('a' ≤ c) && (c ≤ 'f'))

/-- The body of the MAC regex `([0-9A-Fa-f]{2}[:-]){5}([0-9A-Fa-f]{2})`,
generalised to `n` groups: `n` groups of two hex digits, the groups joined by
single `:` or `-` separators, consuming the whole character list. -/
def macGroups : Nat → List Char → Bool
  | 0, _ => false
  | 1, [a, b] => isHexDigit a && isHexDigit b
  | 1, _ => false
  | n + 2, a :: b :: s :: rest =>
      isHexDigit a && isHexDigit b && (s == ':' || s == '-') && macGroups (n + 1) rest
  | _ + 2, _ => false

/-- Python `re.match` on a pattern of the form `^core$`: the `$` anchor matches
at the end of the string **or just before a newline that ends the string**
(CPython `re` semantics for `$` outside MULTILINE mode). -/
def pyDollarMatch (core : List Char → Bool) (cs : List Char) : Bool :=
  core cs || (cs.getLast? == some '\n' && core cs.dropLast)

/-- `is_valid_mac` (lines 36-39): `bool(re.match(r'^([0-9A-Fa-f]{2}[:-]){5}([0-9A-Fa-f]{2})$', mac))`. -/
def is_valid_mac (mac : String) : Bool :=
  pyDollarMatch (macGroups 6) mac.data

/-- The body of the IP regex `(\d{1,3}\.){3}\d{1,3}` generalised to `n`
dot-separated groups of one to three digits.  Digits and `.` are disjoint, so
the greedy engine accepts exactly the strings that decompose this way. -/
def ipGroups : Nat → List Char → Bool
  | 0, _ => false
  | 1, cs =>
      let ds := cs.takeWhile Char.isDigit
      decide (1 ≤ ds.length) && decide (ds.length ≤ 3) && (cs.dropWhile Char.isDigit == [])
  | n + 2, cs =>
      let ds := cs.takeWhile Char.isDigit
      match cs.dropWhile Char.isDigit with
      | '.' :: rest => decide (1 ≤ ds.length) && decide (ds.length ≤ 3) && ipGroups (n + 1) rest
      | _ => false

/-- Python `int(part)` for one `'.'`-separated part of a string that already
matched the IP regex: strip surrounding whitespace, then read a decimal
numeral (the sign and underscore forms `int` also accepts cannot occur in a
part that passed the pattern). -/
def pyIntPart (p : List Char) : Option Nat :=
  let cs := (pyStrip ⟨p⟩).data
  if cs ≠ [] ∧ cs.all Char.isDigit then
    some (cs.foldl (fun a c => 10 * a + (c.toNat - 48)) 0)
  else none

/-- `0 <= int(part) <= 255` for one part. -/
def ipPartOk (p : List Char) : Bool :=
  match pyIntPart p with
  | some n => n ≤ 255
  | none => false

/-- `is_valid_ip` (lines 41-46): the regex `^(\d{1,3}\.){3}\d{1,3}$` must match,
and then every `'.'`-separated part must parse into `[0, 255]`. -/
def is_valid_ip (ip : String) : Bool :=
  pyDollarMatch (ipGroups 4) ip.data && (splitOn '.' ip.data).all ipPartOk

/-! ## The registry (`self.config['devices']`) and the config file -/

/-- The value stored under one MAC key: `{'name': ..., 'ip': ...}`. -/
structure DeviceInfo where
  name : String
  ip : String
deriving Repr, DecidableEq

/-- `self.config['devices']`: a Python dict as an insertion-ordered association
list whose keys are distinct. -/
abbrev Registry := List (String × DeviceInfo)

/-- Python dict assignment `d[k] = v`: replaces the value in place when the key
is present, appends a new entry otherwise. -/
def dictInsert (reg : Registry) (k : String) (v : DeviceInfo) : Registry :=
  if reg.any (fun p => p.1 == k) then
    reg.map (fun p => if p.1 = k then (k, v) else p)
  else reg ++ [(k, v)]

/-- The serialised form `json.dump` produces for one device record
(whitespace abbreviated; string escaping is not modelled — the records in the
claims contain no characters needing escapes). -/
def serializeEntry (p : String × DeviceInfo) : String :=
  "\"" ++ p.1 ++ "\": \x7b\"name\": \"" ++ p.2.name ++ "\", \"ip\": \"" ++ p.2.ip ++ "\"\x7d"

/-- The serialised form of `self.config` = `{"devices": {...}}`. -/
def serialize (reg : Registry) : String :=
  "\x7b\"devices\": \x7b" ++ String.intercalate ", " (reg.map serializeEntry) ++ "\x7d\x7d"

/-- `save_config` (lines 31-34): `open(self.config_path, 'w')` **truncates the
file at once**, and `json.dump` then streams the serialisation into it.
`written` is how many characters reach the file before the process stops;
`written ≥ (serialize reg).length` is a completed save.  The previous content
`prev` is discarded by the truncating open whatever happens afterwards. -/
def save_config (prev : Option String) (reg : Registry) (written : Nat) : Option String :=
  let _ := prev
  some ⟨(serialize reg).data.take written⟩

/-- A completed `save_config` (every character written). -/
def save_config_ok (prev : Option String) (reg : Registry) : Option String :=
  save_config prev reg (serialize reg).length

/-! ## Registry operations -/

/-- The errors `save_device_manually` raises (all `ValueError` in Python,
distinguished by message). -/
inductive SaveErr where
  | invalidIp (ip : String)
  | invalidMac (mac : String)
  | duplicateName (name : String)
deriving Repr, DecidableEq

/-- Outcome of `save_device_manually`: the error if one was raised, the
resulting in-memory registry, the resulting file, and whether `save_config`
ran. -/
structure ManualSaveResult where
  error : Option SaveErr
  devices : Registry
  file : Option String
  savedCalled : Bool
deriving Repr, DecidableEq

/-- `save_device_manually` (lines 48-72): validate the IP, validate the MAC,
scan existing records for a case-insensitive name collision, lowercase the MAC,
store the record under the lowercased MAC, save. -/
def save_device_manually (devices : Registry) (file : Option String)
    (ip mac name : String) : ManualSaveResult :=
  if !(is_valid_ip ip) then ⟨some (.invalidIp ip), devices, file, false⟩
  else if !(is_valid_mac mac) then ⟨some (.invalidMac mac), devices, file, false⟩
  else if devices.any (fun p => pyLower p.2.name == pyLower name) then
    ⟨some (.duplicateName name), devices, file, false⟩
  else
    let macL := pyLower mac
    let devices' := dictInsert devices macL ⟨name, ip⟩
    ⟨none, devices', save_config_ok file devices', true⟩

/-- The loop of `discover_devices` (lines 79-94): `devs` are the `(mac, ip)`
pairs `lifxlan` reports, `inputs` the successive interactive answers, consumed
only when a prompt happens (i.e. when the MAC is new); an answer that strips to
the empty string skips the device.  Only membership of the MAC key is checked —
the entered name is **not** compared against existing names. -/
def discoverLoop (devices : Registry) (devs : List (String × String))
    (inputs : List String) : Registry :=
  match devs with
  | [] => devices
  | (mac, ip) :: rest =>
      if devices.any (fun p => p.1 == mac) then discoverLoop devices rest inputs
      else
        let name := pyStrip (inputs.headD "")
        if name ≠ "" then
          discoverLoop (dictInsert devices mac ⟨name, ip⟩) rest inputs.tail
        else discoverLoop devices rest inputs.tail

/-- `discover_devices` (lines 74-97): run the loop, then one `save_config`. -/
def discover_devices (devices : Registry) (file : Option String)
    (devs : List (String × String)) (inputs : List String) : Registry × Option String :=
  let d := discoverLoop devices devs inputs
  (d, save_config_ok file d)

/-- The self-healing write `self.config['devices'][mac]['ip'] = ...`
(line 209): update the address of the record stored under `mac` in place. -/
def updateIp (devices : Registry) (mac ip : String) : Registry :=
  devices.map (fun p => if p.1 = mac then (p.1, { p.2 with ip := ip }) else p)

/-- `get_device_by_name` (lines 99-104): first record whose name matches
case-insensitively, as `(mac, info)`. -/
def get_device_by_name (devices : Registry) (name : String) :
    Option (String × DeviceInfo) :=
  devices.find? (fun p => pyLower p.2.name == pyLower name)

/-- The registry invariant of the specification: keys (ids) pairwise distinct,
and names pairwise distinct after lowercasing. -/
def RegistryInv (devices : Registry) : Prop :=
  (devices.map Prod.fst).Nodup ∧ (devices.map (fun p => pyLower p.2.name)).Nodup

instance : DecidablePred RegistryInv := fun d => by
  unfold RegistryInv; infer_instance

/-! ## RetryExecutor: `retry_command` -/

/-- What one call into the transport produces: a value, or one of the three
exception classes `retry_command` distinguishes (`WorkflowException`,
`ValueError`, anything else). -/
inductive OpResult (α : Type) where
  | ok (a : α)
  | workflowExc (msg : String)
  | valueError (msg : String)
  | otherExc (msg : String)
deriving Repr, DecidableEq

/-- A transport call, logged in order of occurrence: the `get_label` connection
probe, a `get_lights` discovery broadcast, the best-effort `light.refresh()`,
and the per-command set/get calls. -/
inductive TEvent where
  | probe (mac ip : String)
  | discovery
  | refreshConn (mac ip : String)
  | setPowerE (mac ip : String) (v : Bool)
  | getPowerE (mac ip : String)
  | setBrightnessE (mac ip : String) (v : Int)
  | setColorE (mac ip : String) (h s b k : Int)
  | getColorE (mac ip : String)
deriving Repr, DecidableEq

/-- A `lifxlan.Light` handle: the MAC and IP it was constructed with. -/
structure Handle where
  mac : String
  ip : String
deriving Repr, DecidableEq

/-- What `retry_command` produces: the operation's value, or the
`LifxControlError` it raises. -/
inductive RetryResult (α : Type) where
  | success (a : α)
  | controlError (msg : String)
deriving Repr, DecidableEq

/-- Observable side effects of one `retry_command` run: how many times the
operation was invoked, the backoff sleeps (in seconds, in order), and the
transport calls made. -/
structure RetryTrace where
  invocations : Nat
  sleeps : List Nat
  events : List TEvent
deriving Repr, DecidableEq

/-- One iteration of `retry_command`'s loop body applied to the operation's
outcome at the current attempt; `cont` continues the loop with the message of
the `WorkflowException` just caught (the refresh of the handle is attempted —
and logged — before continuing; its own failure is swallowed). -/
def retryStep (light : Handle) (sleeps : List Nat) (r : OpResult α × List TEvent)
    (cont : String → RetryResult α × RetryTrace) : RetryResult α × RetryTrace :=
  match r with
  | (.ok a, evs) => (.success a, ⟨1, sleeps, evs⟩)
  | (.workflowExc m, evs) =>
      let (res, t) := cont m
      (res, ⟨t.invocations + 1, sleeps ++ t.sleeps,
             evs ++ [TEvent.refreshConn light.mac light.ip] ++ t.events⟩)
  | (.valueError m, evs) => (.controlError ("Invalid parameter: " ++ m), ⟨1, sleeps, evs⟩)
  | (.otherExc m, evs) => (.controlError ("Unexpected error: " ++ m), ⟨1, sleeps, evs⟩)

/-- `retry_command`'s loop (lines 122-141) from attempt index `attempt`, with
`fuel = MAX_RETRIES - attempt` iterations left and `last` the message of the
last `WorkflowException` seen; before attempt index `a > 0` it sleeps
`RETRY_DELAY * 2 ^ a` seconds. -/
def retryAux (light : Handle) (op : Nat → OpResult α × List TEvent) :
    Nat → Nat → String → RetryResult α × RetryTrace
  | 0, _, last =>
      (.controlError ("Failed after " ++ toString MAX_RETRIES ++ " attempts: " ++ last),
       ⟨0, [], []⟩)
  | fuel + 1, attempt, _ =>
      retryStep light (if attempt > 0 then [RETRY_DELAY * 2 ^ attempt] else [])
        (op attempt) (retryAux light op fuel (attempt + 1))

/-- `retry_command` (lines 119-141): run the loop from attempt 0 with
`MAX_RETRIES` iterations; `last_exception` starts as Python's `None`. -/
def retry_command (light : Handle) (op : Nat → OpResult α × List TEvent) :
    RetryResult α × RetryTrace :=
  retryAux light op MAX_RETRIES 0 "None"

/-! ## The external transport (`lifxlan`) as a world of responses -/

/-- Responses of the external `lifxlan` transport.  Each per-handle operation
is keyed by the handle's MAC and IP and by the retry attempt index on which it
is made, so a world can fail some attempts and serve others. -/
structure World where
  label : String → String → OpResult String
  lights : List (String × String)
  setPower : String → String → Bool → Nat → OpResult Unit
  getPower : String → String → Nat → OpResult Int
  setBrightness : String → String → Int → Nat → OpResult Unit
  setColor : String → String → (Int × Int × Int × Int) → Nat → OpResult Unit
  getColor : String → String → Nat → OpResult (Int × Int × Int × Int)

/-- Make one transport call: log its event, then either continue with the
returned value or let the raised exception propagate. -/
def callEv (ev : TEvent) (r : OpResult α) (k : α → OpResult β × List TEvent) :
    OpResult β × List TEvent :=
  match r with
  | .ok a => let (res, evs) := k a; (res, ev :: evs)
  | .workflowExc m => (.workflowExc m, [ev])
  | .valueError m => (.valueError m, [ev])
  | .otherExc m => (.otherExc m, [ev])

/-! ## VerifiedOperations: the per-command mutate-and-confirm bodies -/

/-- `power_command` (lines 145-151) at one attempt: set power, settle, read the
power back, `WorkflowException` when the boolean states differ. -/
def power_command (w : World) (l : Handle) (state : Bool) (attempt : Nat) :
    OpResult Unit × List TEvent :=
  callEv (.setPowerE l.mac l.ip state) (w.setPower l.mac l.ip state attempt) fun _ =>
  callEv (.getPowerE l.mac l.ip) (w.getPower l.mac l.ip attempt) fun cur =>
  if decide (cur ≠ 0) != state then (.workflowExc "Power state verification failed", [])
  else (.ok (), [])

/-- `brightness_command` (lines 157-163) at one attempt: set the brightness,
settle, read back the third colour component, `WorkflowException` when it
drifts from the requested level by more than 100. -/
def brightness_command (w : World) (l : Handle) (level : Int) (attempt : Nat) :
    OpResult Unit × List TEvent :=
  callEv (.setBrightnessE l.mac l.ip level) (w.setBrightness l.mac l.ip level attempt) fun _ =>
  callEv (.getColorE l.mac l.ip) (w.getColor l.mac l.ip attempt) fun c =>
  if (c.2.2.1 - level).natAbs > 100 then (.workflowExc "Brightness verification failed", [])
  else (.ok (), [])

/-- `color_command` (lines 169-176) at one attempt: set the four HSBK
components, settle, read the colour back, `WorkflowException` when any
component drifts from its target by more than 100. -/
def color_command (w : World) (l : Handle) (h s b k : Int) (attempt : Nat) :
    OpResult Unit × List TEvent :=
  callEv (.setColorE l.mac l.ip h s b k) (w.setColor l.mac l.ip (h, s, b, k) attempt) fun _ =>
  callEv (.getColorE l.mac l.ip) (w.getColor l.mac l.ip attempt) fun c =>
  if (c.1 - h).natAbs > 100 ∨ (c.2.1 - s).natAbs > 100 ∨
     (c.2.2.1 - b).natAbs > 100 ∨ (c.2.2.2 - k).natAbs > 100 then
    (.workflowExc "Color verification failed", [])
  else (.ok (), [])

/-- `status_command` (lines 182-185) at one attempt: read power and colour. -/
def status_command (w : World) (l : Handle) (attempt : Nat) :
    OpResult (Int × (Int × Int × Int × Int)) × List TEvent :=
  callEv (.getPowerE l.mac l.ip) (w.getPower l.mac l.ip attempt) fun p =>
  callEv (.getColorE l.mac l.ip) (w.getColor l.mac l.ip attempt) fun c =>
  (.ok (p, c), [])

/-- `execute_power_command` (lines 143-153). -/
def execute_power_command (w : World) (l : Handle) (state : Bool) :
    RetryResult Unit × RetryTrace :=
  retry_command l (power_command w l state)

/-- `execute_brightness_command` (lines 155-165). -/
def execute_brightness_command (w : World) (l : Handle) (level : Int) :
    RetryResult Unit × RetryTrace :=
  retry_command l (brightness_command w l level)

/-- `execute_color_command` (lines 167-178). -/
def execute_color_command (w : World) (l : Handle) (h s b k : Int) :
    RetryResult Unit × RetryTrace :=
  retry_command l (color_command w l h s b k)

/-- `get_device_status` (lines 180-187). -/
def get_device_status (w : World) (l : Handle) :
    RetryResult (Int × (Int × Int × Int × Int)) × RetryTrace :=
  retry_command l (status_command w l)

/-! ## CommandEngine: `execute_command` -/

/-- The observable outcome of `execute_command`: early return on an unknown
name, success, a printed `LifxControlError`, or the generic
"Unexpected error" branch. -/
inductive ExecOutcome where
  | notFound
  | ok
  | controlErrorMsg (m : String)
  | unexpected (m : String)
deriving Repr, DecidableEq

/-- Outcome plus the resulting registry, config file, whether `save_config`
ran, and the transport calls made, in order. -/
structure ExecResult where
  outcome : ExecOutcome
  devices : Registry
  file : Option String
  savedCalled : Bool
  events : List TEvent
deriving Repr, DecidableEq

/-- Fold a verified operation's result into the command boundary: a raised
`LifxControlError` is caught and printed (lines 259-260), success falls
through to the success message. -/
def finishDispatch (devices : Registry) (file : Option String) (saved : Bool)
    (evs : List TEvent) : RetryResult α × RetryTrace → ExecResult
  | (.success _, t) => ⟨.ok, devices, file, saved, evs ++ t.events⟩
  | (.controlError m, t) => ⟨.controlErrorMsg m, devices, file, saved, evs ++ t.events⟩

/-- The command-dispatch chain of `execute_command` (lines 216-255), entered
with the (possibly rebuilt) handle `⟨mac, ip⟩` after the probe/healing phase,
which contributed `evs`, `saved` and the current `devices`/`file`. -/
def execDispatch (w : World) (devices : Registry) (file : Option String)
    (mac ip command : String) (args : List Int) (saved : Bool)
    (evs : List TEvent) : ExecResult :=
  let light : Handle := ⟨mac, ip⟩
  if command = "on" then
    finishDispatch devices file saved evs (execute_power_command w light true)
  else if command = "off" then
    finishDispatch devices file saved evs (execute_power_command w light false)
  else if command = "setBrightness" then
    match args with
    | [] => ⟨.controlErrorMsg "Brightness value (0-65535) required.", devices, file, saved, evs⟩
    | b :: _ =>
        if ¬ (0 ≤ b ∧ b ≤ 65535) then
          ⟨.controlErrorMsg "Brightness must be between 0 and 65535", devices, file, saved, evs⟩
        else finishDispatch devices file saved evs (execute_brightness_command w light b)
  else if command = "setColor" then
    match args with
    | h :: s :: b :: k :: _ =>
        if ¬ (0 ≤ h ∧ h ≤ 65535 ∧ 0 ≤ s ∧ s ≤ 65535 ∧ 0 ≤ b ∧ b ≤ 65535) then
          ⟨.controlErrorMsg "Hue, saturation, and brightness must be between 0 and 65535",
           devices, file, saved, evs⟩
        else if ¬ (2500 ≤ k ∧ k ≤ 9000) then
          ⟨.controlErrorMsg "Kelvin must be between 2500 and 9000", devices, file, saved, evs⟩
        else finishDispatch devices file saved evs (execute_color_command w light h s b k)
    | _ =>
        ⟨.controlErrorMsg
          ("Color requires 4 values: hue (0-65535), saturation (0-65535), " ++
           "brightness (0-65535), kelvin (2500-9000)"), devices, file, saved, evs⟩
  else if command = "status" then
    finishDispatch devices file saved evs (get_device_status w light)
  else
    ⟨.controlErrorMsg ("Unknown command: " ++ command), devices, file, saved, evs⟩

/-- `execute_command` (lines 189-264): resolve the name; probe the connection
with `get_label`; on a `WorkflowException` re-discover, and either repair the
stored address (persisting at once) and rebuild the handle, or raise "Could not
find device ... on the network"; then dispatch the command. -/
def execute_command (w : World) (devices : Registry) (file : Option String)
    (name command : String) (args : List Int) : ExecResult :=
  match get_device_by_name devices name with
  | none => ⟨.notFound, devices, file, false, []⟩
  | some (mac, info) =>
      let probeEv : List TEvent := [.probe mac info.ip]
      match w.label mac info.ip with
      | .ok _ => execDispatch w devices file mac info.ip command args false probeEv
      | .workflowExc _ =>
          let evs := probeEv ++ [TEvent.discovery]
          match w.lights.find? (fun d => d.1 == mac) with
          | some d =>
              let devices' := updateIp devices mac d.2
              let file' := save_config_ok file devices'
              execDispatch w devices' file' mac d.2 command args true evs
          | none =>
              ⟨.controlErrorMsg ("Could not find device " ++ name ++ " on the network"),
               devices, file, false, evs⟩
      | .valueError m => ⟨.unexpected m, devices, file, false, probeEv⟩
      | .otherExc m => ⟨.unexpected m, devices, file, false, probeEv⟩

/-! ## The specification's canonical MAC form, modelled from its words -/

/-- From the spec's words, for comparison with the implementation: the
"canonical lowercase colon-separated form" of a MAC string — every letter
lowercased and every hyphen separator replaced by a colon. -/
def specCanonicalMac (s : String) : String :=
  ⟨s.data.map (fun c => if c = '-' then ':' else c.toLower)⟩

/-- The spec's language for `validateMac`, declaratively: six 2-hex-digit
groups joined by five single `:` or `-` separators.  `joinGroups g seps`
interleaves the groups with the separators. -/
def joinGroups : List (List Char) → List Char → List Char
  | [], _ => []
  | [g], _ => g
  | g :: g' :: gs, s :: seps => g ++ s :: joinGroups (g' :: gs) seps
  | g :: g' :: gs, [] => g ++ joinGroups (g' :: gs) []

/-- `cs` consists of `n` groups of two hex digits joined by `n - 1` single
colon or hyphen separators. -/
def MacShapeN (n : Nat) (cs : List Char) : Prop :=
  ∃ (g : List (List Char)) (seps : List Char),
    g.length = n ∧ (∀ p ∈ g, p.length = 2 ∧ ∀ c ∈ p, isHexDigit c = true) ∧
    seps.length = n - 1 ∧ (∀ c ∈ seps, c = ':' ∨ c = '-') ∧ cs = joinGroups g seps

/-- The spec's MAC language: six 2-hex-digit groups, `:` or `-` separated. -/
def MacShape (cs : List Char) : Prop := MacShapeN 6 cs

/-! ## Concrete registries, worlds and operations for witnesses and
counterexamples -/

/-- A sample registered device. -/
def macT : String := "d0:73:d5:01:02:03"

/-- A one-device registry holding `Lamp1` at a (possibly stale) address. -/
def regT : Registry := [(macT, ⟨"Lamp1", "192.168.1.10"⟩)]

/-- A sample handle for retry runs. -/
def handleT : Handle := ⟨macT, "192.168.1.10"⟩

/-- A transport world where the probe succeeds and the device applies every
command exactly, reporting back `(1000, 2000, 3000, 2700)` as its colour. -/
def wOk : World :=
  { label := fun _ _ => .ok "Lamp1"
    lights := []
    setPower := fun _ _ _ _ => .ok ()
    getPower := fun _ _ _ => .ok 65535
    setBrightness := fun _ _ _ _ => .ok ()
    setColor := fun _ _ _ _ => .ok ()
    getColor := fun _ _ _ => .ok (1000, 2000, 3000, 2700) }

/-- A world where the probe times out at the stale address `192.168.1.10`,
discovery reports `Lamp1`'s MAC at `192.168.1.42`, and the device then behaves
ideally. -/
def wHeal : World :=
  { label := fun _ ip => if ip = "192.168.1.10" then .workflowExc "timeout" else .ok "Lamp1"
    lights := [("aa:00:00:00:00:01", "192.168.1.77"), (macT, "192.168.1.42")]
    setPower := fun _ _ _ _ => .ok ()
    getPower := fun _ _ _ => .ok 65535
    setBrightness := fun _ _ _ _ => .ok ()
    setColor := fun _ _ _ _ => .ok ()
    getColor := fun _ _ _ => .ok (1000, 2000, 3000, 2700) }

/-- A world where the probe fails and discovery does not see the device. -/
def wLost : World :=
  { wHeal with lights := [("aa:00:00:00:00:01", "192.168.1.77")] }

/-- An operation failing with a transport error on attempts 0 and 1 and
succeeding on attempt 2. -/
def opFailTwice : Nat → OpResult Nat × List TEvent := fun i =>
  if i < 2 then (.workflowExc ("boom" ++ toString i), []) else (.ok 7, [])

/-- An operation failing with a transport error on every attempt. -/
def opAlwaysFail : Nat → OpResult Nat × List TEvent := fun i =>
  (.workflowExc ("boom" ++ toString i), [])

/-- An operation raising a `ValueError` at once. -/
def opValueErr : Nat → OpResult Nat × List TEvent := fun _ => (.valueError "bad hue", [])

/-- An operation raising an uncategorised exception at once. -/
def opOtherErr : Nat → OpResult Nat × List TEvent := fun _ => (.otherExc "socket closed", [])

/-! ## Unfolding lemmas for the retry loop -/

theorem retry_unfold0 (light : Handle) (op : Nat → OpResult α × List TEvent) :
    retry_command light op = retryStep light [] (op 0) (retryAux light op 2 1) := rfl

theorem retryAux_at1 (light : Handle) (op : Nat → OpResult α × List TEvent) (m : String) :
    retryAux light op 2 1 m =
      retryStep light [RETRY_DELAY * 2 ^ 1] (op 1) (retryAux light op 1 2) := rfl

theorem retryAux_at2 (light : Handle) (op : Nat → OpResult α × List TEvent) (m : String) :
    retryAux light op 1 2 m =
      retryStep light [RETRY_DELAY * 2 ^ 2] (op 2) (retryAux light op 0 3) := rfl

theorem retryAux_exhausted (light : Handle) (op : Nat → OpResult α × List TEvent)
    (a : Nat) (m : String) :
    retryAux light op 0 a m =
      (.controlError ("Failed after 3 attempts: " ++ m), ⟨0, [], []⟩) := rfl

theorem retryStep_ok (light : Handle) (sleeps : List Nat) (a : α) (evs : List TEvent)
    (cont : String → RetryResult α × RetryTrace) :
    retryStep light sleeps (.ok a, evs) cont = (.success a, ⟨1, sleeps, evs⟩) := rfl

theorem retryStep_workflow (light : Handle) (sleeps : List Nat) (m : String)
    (evs : List TEvent) (cont : String → RetryResult α × RetryTrace) :
    retryStep light sleeps (.workflowExc m, evs) cont =
      ((cont m).1, ⟨(cont m).2.invocations + 1, sleeps ++ (cont m).2.sleeps,
        evs ++ [TEvent.refreshConn light.mac light.ip] ++ (cont m).2.events⟩) := rfl

theorem retryStep_value (light : Handle) (sleeps : List Nat) (m : String)
    (evs : List TEvent) (cont : String → RetryResult α × RetryTrace) :
    retryStep light sleeps (.valueError m, evs) cont =
      (.controlError ("Invalid parameter: " ++ m), ⟨1, sleeps, evs⟩) := rfl

theorem retryStep_other (light : Handle) (sleeps : List Nat) (m : String)
    (evs : List TEvent) (cont : String → RetryResult α × RetryTrace) :
    retryStep light sleeps (.otherExc m, evs) cont =
      (.controlError ("Unexpected error: " ++ m), ⟨1, sleeps, evs⟩) := rfl

/-! ## C5: bounded retry with exponential backoff -/

/-- C5: an operation raising a transport error exactly `k` times
(`k < MAX_RETRIES`) and then succeeding makes `retry_command` return the
operation's result after `k + 1` invocations, sleeping
`RETRY_DELAY * 2 ^ (n - 1)` seconds before each attempt `n > 1` (no sleep
before the first attempt, delays strictly increasing); an operation raising a
transport error on every attempt is invoked exactly `MAX_RETRIES = 3` times and
`retry_command` then raises a `ControlError` wrapping the last transport
error. -/
theorem C5_retry_backoff :
    (∀ (α : Type) (light : Handle) (op : Nat → OpResult α × List TEvent)
       (k : Nat) (a : α) (evs : List TEvent),
       k < MAX_RETRIES →
       (∀ i, i < k → ∃ m e, op i = (.workflowExc m, e)) →
       op k = (.ok a, evs) →
       (retry_command light op).1 = .success a ∧
       (retry_command light op).2.invocations = k + 1 ∧
       (retry_command light op).2.sleeps =
         ((List.range (k + 1)).drop 1).map (fun n => RETRY_DELAY * 2 ^ n) ∧
       List.Chain' (· < ·) (retry_command light op).2.sleeps) ∧
    (∀ (α : Type) (light : Handle) (op : Nat → OpResult α × List TEvent)
       (f : Nat → String),
       (∀ i, i < MAX_RETRIES → ∃ e, op i = (.workflowExc (f i), e)) →
       (retry_command light op).1 =
         .controlError ("Failed after 3 attempts: " ++ f 2) ∧
       (retry_command light op).2.invocations = MAX_RETRIES) := by
  constructor
  · intro α light op k a evs hk hfail hok
    have hk3 : k < 3 := hk
    interval_cases k
    · rw [retry_unfold0, hok, retryStep_ok]
      exact ⟨rfl, rfl, rfl, by simp⟩
    · obtain ⟨m0, e0, h0⟩ := hfail 0 (by norm_num)
      rw [retry_unfold0, h0, retryStep_workflow, retryAux_at1, hok, retryStep_ok]
      exact ⟨rfl, rfl, rfl, by show List.Chain' (· < ·) ([2] : List Nat); simp⟩
    · obtain ⟨m0, e0, h0⟩ := hfail 0 (by norm_num)
      obtain ⟨m1, e1, h1⟩ := hfail 1 (by norm_num)
      rw [retry_unfold0, h0, retryStep_workflow, retryAux_at1, h1, retryStep_workflow,
        retryAux_at2, hok, retryStep_ok]
      exact ⟨rfl, rfl, rfl, by show List.Chain' (· < ·) ([2, 4] : List Nat); norm_num [List.chain'_cons, List.chain'_singleton]⟩
  · intro α light op f h
    obtain ⟨e0, h0⟩ := h 0 (by decide)
    obtain ⟨e1, h1⟩ := h 1 (by decide)
    obtain ⟨e2, h2⟩ := h 2 (by decide)
    rw [retry_unfold0, h0, retryStep_workflow, retryAux_at1, h1, retryStep_workflow,
      retryAux_at2, h2, retryStep_workflow, retryAux_exhausted]
    exact ⟨rfl, rfl⟩

/-- Witness for C5 at concrete operations: `opFailTwice` fails twice then
returns 7; `opAlwaysFail` is invoked exactly three times. -/
theorem C5_retry_backoff_witness :
    (retry_command handleT opFailTwice).1 = .success 7 ∧
    (retry_command handleT opAlwaysFail).2.invocations = 3 := by
  constructor
  · exact (C5_retry_backoff.1 Nat handleT opFailTwice 2 7 [] (by decide)
      (fun i hi => ⟨"boom" ++ toString i, [], by simp [opFailTwice, hi]⟩)
      (by simp [opFailTwice])).1
  · exact (C5_retry_backoff.2 Nat handleT opAlwaysFail (fun i => "boom" ++ toString i)
      (fun i _ => ⟨[], rfl⟩)).2

/-! ## C7: non-transport errors propagate at once -/

/-- C7: an operation raising a `ValueError` on its first attempt makes
`retry_command` raise `ControlError ("Invalid parameter: ...")` at once, after
one invocation with no sleeps; any other non-transport error is likewise
propagated at once as `ControlError ("Unexpected error: ...")`. -/
theorem C7_no_retry_on_validation :
    (∀ (α : Type) (light : Handle) (op : Nat → OpResult α × List TEvent)
       (m : String) (evs : List TEvent),
       op 0 = (.valueError m, evs) →
       retry_command light op =
         (.controlError ("Invalid parameter: " ++ m), ⟨1, [], evs⟩)) ∧
    (∀ (α : Type) (light : Handle) (op : Nat → OpResult α × List TEvent)
       (m : String) (evs : List TEvent),
       op 0 = (.otherExc m, evs) →
       retry_command light op =
         (.controlError ("Unexpected error: " ++ m), ⟨1, [], evs⟩)) := by
  constructor
  · intro α light op m evs h
    rw [retry_unfold0, h, retryStep_value]
  · intro α light op m evs h
    rw [retry_unfold0, h, retryStep_other]

/-- Witness for C7 at concrete operations. -/
theorem C7_no_retry_on_validation_witness :
    retry_command handleT opValueErr =
      (.controlError "Invalid parameter: bad hue", ⟨1, [], []⟩) ∧
    retry_command handleT opOtherErr =
      (.controlError "Unexpected error: socket closed", ⟨1, [], []⟩) :=
  ⟨C7_no_retry_on_validation.1 Nat handleT opValueErr "bad hue" [] rfl,
   C7_no_retry_on_validation.2 Nat handleT opOtherErr "socket closed" [] rfl⟩

/-! ## Registry lemmas shared by C2, C4, C8 -/

/-- Overwriting an existing key leaves the key list unchanged. -/
theorem dictInsert_keys_pos (reg : Registry) (k : String) (v : DeviceInfo)
    (h : reg.any (fun p => p.1 == k) = true) :
    (dictInsert reg k v).map Prod.fst = reg.map Prod.fst := by
  unfold dictInsert
  rw [if_pos h, List.map_map]
  apply List.map_congr_left
  intro p _
  by_cases hp : p.1 = k <;> simp [hp]

/-- `dictInsert` always preserves distinctness of the keys. -/
theorem dictInsert_keys_nodup (reg : Registry) (k : String) (v : DeviceInfo)
    (h : (reg.map Prod.fst).Nodup) :
    ((dictInsert reg k v).map Prod.fst).Nodup := by
  by_cases hk : reg.any (fun p => p.1 == k) = true
  · rw [dictInsert_keys_pos reg k v hk]; exact h
  · unfold dictInsert
    rw [if_neg hk, List.map_append]
    have hout : k ∉ reg.map Prod.fst := by
      intro hmem
      obtain ⟨p, hp, hpk⟩ := List.mem_map.mp hmem
      exact hk (List.any_eq_true.mpr ⟨p, hp, beq_iff_eq.mpr hpk⟩)
    simp [List.nodup_append, h, List.disjoint_singleton, hout]

/-- `dictInsert` preserves the full registry invariant when the inserted name
collides (case-insensitively) with no existing record's name. -/
theorem dictInsert_registryInv (reg : Registry) (k : String) (v : DeviceInfo)
    (hinv : RegistryInv reg)
    (hfresh : ∀ p ∈ reg, pyLower p.2.name ≠ pyLower v.name) :
    RegistryInv (dictInsert reg k v) := by
  obtain ⟨hkeys, hnames⟩ := hinv
  refine ⟨dictInsert_keys_nodup reg k v hkeys, ?_⟩
  unfold dictInsert
  by_cases hk : reg.any (fun p => p.1 == k) = true
  · rw [if_pos hk]
    clear hk
    induction reg with
    | nil => simp
    | cons p t ih =>
      simp only [List.map_cons, List.nodup_cons] at hkeys hnames ⊢
      by_cases hp : p.1 = k
      · have htail : ∀ q ∈ t, q.1 ≠ k := by
          intro q hq hqk
          exact hkeys.1 (List.mem_map.mpr ⟨q, hq, by rw [hqk, hp]⟩)
        have hmap : t.map (fun p => if p.1 = k then (k, v) else p) = t := by
          conv_rhs => rw [← List.map_id t]
          apply List.map_congr_left
          intro q hq
          simp [htail q hq]
        simp only [hp, if_pos rfl, hmap]
        constructor
        · intro hmem
          obtain ⟨q, hq, hqe⟩ := List.mem_map.mp hmem
          exact hfresh q (List.mem_cons_of_mem p hq) hqe
        · exact hnames.2
      · rw [if_neg hp]
        refine ⟨?_, ih (fun q hq => hfresh q (List.mem_cons_of_mem p hq)) hkeys.2 hnames.2⟩
        intro hmem
        rw [List.map_map] at hmem
        obtain ⟨q, hq, hqe⟩ := List.mem_map.mp hmem
        by_cases hqk : q.1 = k
        · simp only [Function.comp, hqk, if_pos rfl] at hqe
          exact hfresh p (List.mem_cons_self p t) hqe.symm
        · simp only [Function.comp, if_neg hqk] at hqe
          exact hnames.1 (List.mem_map.mpr ⟨q, hq, hqe⟩)
  · rw [if_neg hk, List.map_append]
    have hnew : pyLower v.name ∉ reg.map (fun p => pyLower p.2.name) := by
      intro hmem
      obtain ⟨q, hq, hqe⟩ := List.mem_map.mp hmem
      exact hfresh q hq hqe
    simp [List.nodup_append, hnames, List.disjoint_singleton, hnew]

/-- The address repair changes no key. -/
theorem updateIp_keys (reg : Registry) (mac ip : String) :
    (updateIp reg mac ip).map Prod.fst = reg.map Prod.fst := by
  unfold updateIp
  rw [List.map_map]
  apply List.map_congr_left
  intro p _
  by_cases hp : p.1 = mac <;> simp [hp]

/-- The address repair changes no name. -/
theorem updateIp_names (reg : Registry) (mac ip : String) :
    (updateIp reg mac ip).map (fun p => pyLower p.2.name) =
      reg.map (fun p => pyLower p.2.name) := by
  unfold updateIp
  rw [List.map_map]
  apply List.map_congr_left
  intro p _
  by_cases hp : p.1 = mac <;> simp [hp]

/-- The address repair (`updateIp`) preserves the registry invariant. -/
theorem updateIp_registryInv (reg : Registry) (mac ip : String)
    (hinv : RegistryInv reg) : RegistryInv (updateIp reg mac ip) := by
  unfold RegistryInv
  rw [updateIp_keys, updateIp_names]
  exact hinv

/-- The record stored under `mac` after the repair carries the new address. -/
theorem updateIp_addr (reg : Registry) (mac ip : String) :
    ∀ p ∈ updateIp reg mac ip, p.1 = mac → p.2.ip = ip := by
  intro p hp hpm
  unfold updateIp at hp
  obtain ⟨q, hq, hqe⟩ := List.mem_map.mp hp
  by_cases hqk : q.1 = mac
  · rw [if_pos hqk] at hqe
    rw [← hqe]
  · rw [if_neg hqk] at hqe
    exact absurd (hqe ▸ hpm) hqk

/-- The discovery loop preserves distinctness of the keys (it only ever inserts
MACs that are not yet present). -/
theorem discoverLoop_keys_nodup (devs : List (String × String)) :
    ∀ (devices : Registry) (inputs : List String),
      (devices.map Prod.fst).Nodup →
      ((discoverLoop devices devs inputs).map Prod.fst).Nodup := by
  induction devs with
  | nil => intro devices inputs h; exact h
  | cons d rest ih =>
    intro devices inputs h
    unfold discoverLoop
    by_cases hmem : devices.any (fun p => p.1 == d.1) = true
    · rw [if_pos hmem]; exact ih devices inputs h
    · rw [if_neg hmem]
      by_cases hname : pyStrip (inputs.headD "") ≠ ""
      · rw [if_pos hname]
        exact ih _ inputs.tail (dictInsert_keys_nodup devices d.1 ⟨_, d.2⟩ h)
      · rw [if_neg hname]
        exact ih devices inputs.tail h

/-! ## C1: when parameter validation happens -/

/-- Counterexample to C1 as stated: with the device registered and reachable,
`setColor` with kelvin 2000 is indeed rejected with the kelvin `ControlError`,
but only **after** the `get_label` connection probe — the transport trace of the
run is `[probe]`, not `[]`, so the rejection does not happen "before any
transport call (including the connection probe)". -/
theorem C1_counterexample :
    execute_command wOk regT none "Lamp1" "setColor" [1000, 2000, 3000, 2000] =
      ⟨.controlErrorMsg "Kelvin must be between 2500 and 9000", regT, none, false,
       [.probe macT "192.168.1.10"]⟩ ∧
    (execute_command wOk regT none "Lamp1" "setColor" [1000, 2000, 3000, 2000]).events ≠ [] := by
  constructor
  · rfl
  · decide

/-- C1 as amended: a parameter contract violation (`setColor` kelvin out of
[2500, 9000], or `setBrightness` level out of [0, 65535]) is rejected with the
corresponding `ControlError` before any verified-operation transport call and
without touching the registry or the config file — but **after** the
`get_label` connection probe, which is always made first (the run's transport
trace is exactly `[probe]`). -/
theorem C1_validation_after_probe (w : World) (devices : Registry) (file : Option String)
    (name mac : String) (info : DeviceInfo) (lbl : String)
    (hfind : get_device_by_name devices name = some (mac, info))
    (hlabel : w.label mac info.ip = .ok lbl) :
    (∀ h s b k : Int,
       (0 ≤ h ∧ h ≤ 65535 ∧ 0 ≤ s ∧ s ≤ 65535 ∧ 0 ≤ b ∧ b ≤ 65535) →
       ¬ (2500 ≤ k ∧ k ≤ 9000) →
       execute_command w devices file name "setColor" [h, s, b, k] =
         ⟨.controlErrorMsg "Kelvin must be between 2500 and 9000", devices, file, false,
          [.probe mac info.ip]⟩) ∧
    (∀ b : Int, ¬ (0 ≤ b ∧ b ≤ 65535) →
       execute_command w devices file name "setBrightness" [b] =
         ⟨.controlErrorMsg "Brightness must be between 0 and 65535", devices, file, false,
          [.probe mac info.ip]⟩) := by
  constructor
  · intro h s b k hin hk
    simp only [execute_command, hfind, hlabel, execDispatch, String.reduceEq, reduceIte]
    rw [if_neg (not_not_intro hin), if_pos hk]
  · intro b hb
    simp only [execute_command, hfind, hlabel, execDispatch, String.reduceEq, reduceIte]
    rw [if_pos hb]

/-- Witness for the amended C1: the kelvin-2000 run of the counterexample,
derived by applying the theorem at the concrete world `wOk`. -/
theorem C1_validation_after_probe_witness :
    execute_command wOk regT none "Lamp1" "setColor" [1000, 2000, 3000, 2000] =
      ⟨.controlErrorMsg "Kelvin must be between 2500 and 9000", regT, none, false,
       [.probe macT "192.168.1.10"]⟩ :=
  (C1_validation_after_probe wOk regT none "Lamp1" macT ⟨"Lamp1", "192.168.1.10"⟩ "Lamp1"
    rfl rfl).1 1000 2000 3000 2000 (by norm_num) (by norm_num)

/-! ## C6: address self-healing by rediscovery -/

/-- C6: when the connection probe raises a transport error, `execute_command`
re-runs discovery.  If a discovered handle's id matches the stored id, the
registry's address for that id is updated to the rediscovered address and
persisted at once, the handle is rebuilt at the new address (the colour calls
in the trace go to `newIp`), and the requested command completes; if no
discovered handle matches, the run fails with the "Could not find device ... on
the network" `ControlError`, whatever the command. -/
theorem C6_rediscovery_repairs_address (w : World) (devices : Registry) (file : Option String)
    (name mac : String) (info : DeviceInfo) (m : String)
    (hfind : get_device_by_name devices name = some (mac, info))
    (hlabel : w.label mac info.ip = .workflowExc m) :
    (∀ newIp : String, w.lights.find? (fun d => d.1 == mac) = some (mac, newIp) →
       ∀ h s b k : Int,
       (0 ≤ h ∧ h ≤ 65535 ∧ 0 ≤ s ∧ s ≤ 65535 ∧ 0 ≤ b ∧ b ≤ 65535) →
       (2500 ≤ k ∧ k ≤ 9000) →
       w.setColor mac newIp (h, s, b, k) 0 = .ok () →
       w.getColor mac newIp 0 = .ok (h, s, b, k) →
       execute_command w devices file name "setColor" [h, s, b, k] =
         ⟨.ok, updateIp devices mac newIp, save_config_ok file (updateIp devices mac newIp), true,
          [.probe mac info.ip, .discovery, .setColorE mac newIp h s b k, .getColorE mac newIp]⟩ ∧
       (∀ p ∈ updateIp devices mac newIp, p.1 = mac → p.2.ip = newIp)) ∧
    (w.lights.find? (fun d => d.1 == mac) = none →
       ∀ command : String, ∀ args : List Int,
       execute_command w devices file name command args =
         ⟨.controlErrorMsg ("Could not find device " ++ name ++ " on the network"),
          devices, file, false, [.probe mac info.ip, .discovery]⟩) := by
  constructor
  · intro newIp hfound h s b k hin hk hset hget
    have hcol : color_command w ⟨mac, newIp⟩ h s b k 0 =
        (.ok (), [.setColorE mac newIp h s b k, .getColorE mac newIp]) := by
      simp [color_command, callEv, hset, hget]
    simp only [execute_command, hfind, hlabel, hfound, execDispatch, String.reduceEq, reduceIte]
    rw [if_neg (not_not_intro hin), if_neg (not_not_intro hk)]
    refine ⟨?_, updateIp_addr devices mac newIp⟩
    rw [execute_color_command, retry_unfold0, hcol, retryStep_ok]
    rfl
  · intro hnone command args
    simp only [execute_command, hfind, hlabel, hnone]
    rfl

/-- Witness for C6: in `wHeal` the probe of `Lamp1` at its stale address fails,
rediscovery finds its MAC at `192.168.1.42`, the registry is repaired and
persisted, and the colour command completes; in `wLost` discovery does not see
the device and the run fails. -/
theorem C6_rediscovery_repairs_address_witness :
    execute_command wHeal regT (some (serialize regT)) "Lamp1" "setColor"
        [1000, 2000, 3000, 2700] =
      ⟨.ok, updateIp regT macT "192.168.1.42",
       save_config_ok (some (serialize regT)) (updateIp regT macT "192.168.1.42"), true,
       [.probe macT "192.168.1.10", .discovery,
        .setColorE macT "192.168.1.42" 1000 2000 3000 2700,
        .getColorE macT "192.168.1.42"]⟩ ∧
    execute_command wLost regT none "Lamp1" "on" [] =
      ⟨.controlErrorMsg "Could not find device Lamp1 on the network", regT, none, false,
       [.probe macT "192.168.1.10", .discovery]⟩ :=
  ⟨((C6_rediscovery_repairs_address wHeal regT (some (serialize regT)) "Lamp1" macT
      ⟨"Lamp1", "192.168.1.10"⟩ "timeout" rfl rfl).1 "192.168.1.42" (by decide)
      1000 2000 3000 2700 (by norm_num) (by norm_num) rfl rfl).1,
   (C6_rediscovery_repairs_address wLost regT none "Lamp1" macT
      ⟨"Lamp1", "192.168.1.10"⟩ "timeout" rfl rfl).2 (by decide) "on" []⟩

/-! ## C10: an unknown command still probes, heals and persists -/

/-- C10: a command outside {on, off, setBrightness, setColor, status} on a
registered device still performs the connection probe first; if the probe fails
and rediscovery finds the device, the stored address is updated and persisted
before the unknown command is reported as a `ControlError` — an invalid command
can thus contact the network and mutate persistent registry state. -/
theorem C10_unknown_command_still_probes (w : World) (devices : Registry)
    (file : Option String) (name mac : String) (info : DeviceInfo)
    (command : String) (args : List Int)
    (hfind : get_device_by_name devices name = some (mac, info))
    (hcmd : ¬ (command = "on" ∨ command = "off" ∨ command = "setBrightness" ∨
               command = "setColor" ∨ command = "status")) :
    (∀ lbl : String, w.label mac info.ip = .ok lbl →
       execute_command w devices file name command args =
         ⟨.controlErrorMsg ("Unknown command: " ++ command), devices, file, false,
          [.probe mac info.ip]⟩) ∧
    (∀ (m newIp : String), w.label mac info.ip = .workflowExc m →
       w.lights.find? (fun d => d.1 == mac) = some (mac, newIp) →
       execute_command w devices file name command args =
         ⟨.controlErrorMsg ("Unknown command: " ++ command), updateIp devices mac newIp,
          save_config_ok file (updateIp devices mac newIp), true,
          [.probe mac info.ip, .discovery]⟩) := by
  push_neg at hcmd
  obtain ⟨h1, h2, h3, h4, h5⟩ := hcmd
  constructor
  · intro lbl hlabel
    simp only [execute_command, hfind, hlabel, execDispatch]
    rw [if_neg h1, if_neg h2, if_neg h3, if_neg h4, if_neg h5]
  · intro m newIp hlabel hfound
    simp only [execute_command, hfind, hlabel, hfound, execDispatch]
    rw [if_neg h1, if_neg h2, if_neg h3, if_neg h4, if_neg h5]
    rfl

/-- Witness for C10: in `wHeal` the unknown command `blink` still triggers the
probe, the rediscovery, and the persisted address repair. -/
theorem C10_unknown_command_still_probes_witness :
    execute_command wHeal regT (some (serialize regT)) "Lamp1" "blink" [] =
      ⟨.controlErrorMsg "Unknown command: blink", updateIp regT macT "192.168.1.42",
       save_config_ok (some (serialize regT)) (updateIp regT macT "192.168.1.42"), true,
       [.probe macT "192.168.1.10", .discovery]⟩ :=
  (C10_unknown_command_still_probes wHeal regT (some (serialize regT)) "Lamp1" macT
    ⟨"Lamp1", "192.168.1.10"⟩ "blink" [] rfl (by decide)).2 "timeout" "192.168.1.42" rfl
    (by decide)

/-! ## C2: which registry mutations preserve the uniqueness invariant -/

/-- Counterexample to C2 as stated: starting from a registry satisfying the
invariant and holding a device named `Lamp`, discovery of a new MAC with the
user-entered name `lamp` inserts it without any name check — two records then
share the same name case-insensitively, so discovery-with-naming does **not**
preserve the invariant. -/
theorem C2_counterexample :
    RegistryInv [("aa:aa:aa:aa:aa:aa", ⟨"Lamp", "192.168.1.5"⟩)] ∧
    ¬ RegistryInv (discover_devices [("aa:aa:aa:aa:aa:aa", ⟨"Lamp", "192.168.1.5"⟩)] none
        [("bb:bb:bb:bb:bb:bb", "192.168.1.6")] ["lamp"]).1 := by
  constructor
  · decide
  · decide

/-- C2 as amended: manual save and the address self-healing preserve the full
invariant (distinct ids, case-insensitively distinct names) for every input,
and discovery-with-naming preserves distinctness of the ids — but discovery
does not in general preserve name uniqueness, because it never compares the
entered name against existing records (see the counterexample). -/
theorem C2_invariant_preservation :
    (∀ (devices : Registry) (file : Option String) (ip mac name : String),
       RegistryInv devices →
       RegistryInv (save_device_manually devices file ip mac name).devices) ∧
    (∀ (devices : Registry) (mac ip : String),
       RegistryInv devices → RegistryInv (updateIp devices mac ip)) ∧
    (∀ (devices : Registry) (file : Option String) (devs : List (String × String))
       (inputs : List String),
       (devices.map Prod.fst).Nodup →
       (((discover_devices devices file devs inputs).1).map Prod.fst).Nodup) := by
  refine ⟨?_, fun devices mac ip => updateIp_registryInv devices mac ip, ?_⟩
  · intro devices file ip mac name hinv
    unfold save_device_manually
    by_cases h1 : is_valid_ip ip
    · by_cases h2 : is_valid_mac mac
      · by_cases h3 : devices.any (fun p => pyLower p.2.name == pyLower name) = true
        · simp only [h1, h2, h3, Bool.not_true, Bool.false_eq_true, if_false, if_true]
          exact hinv
        · simp only [h1, h2, h3, Bool.not_true, Bool.false_eq_true, if_false]
          apply dictInsert_registryInv devices _ _ hinv
          intro p hp
          have := (List.any_eq_false.mp (Bool.not_eq_true _ ▸ h3)) p hp
          simpa using this
      · simp [h1, h2, hinv]
    · simp [h1, hinv]
  · intro devices file devs inputs h
    exact discoverLoop_keys_nodup devs devices inputs h

/-- Witness for the amended C2: a fresh manual save into a one-device registry
keeps the invariant. -/
theorem C2_invariant_preservation_witness :
    RegistryInv (save_device_manually [("aa:aa:aa:aa:aa:aa", ⟨"Lamp", "192.168.1.5"⟩)] none
      "192.168.1.6" "bb:bb:bb:bb:bb:bb" "Desk").devices :=
  C2_invariant_preservation.1 [("aa:aa:aa:aa:aa:aa", ⟨"Lamp", "192.168.1.5"⟩)] none
    "192.168.1.6" "bb:bb:bb:bb:bb:bb" "Desk" (by decide)

/-! ## C3: the save is an in-place overwrite, not an atomic replace -/

/-- Counterexample to C3 as stated: with a one-device snapshot on disk, a save
of the updated registry that fails right after the truncating `open` (zero
characters written) leaves the file empty — the previously persisted snapshot
is destroyed, not intact. -/
theorem C3_counterexample :
    save_config (some (serialize [("aa:aa:aa:aa:aa:aa", ⟨"Lamp", "192.168.1.5"⟩)]))
        [("aa:aa:aa:aa:aa:aa", ⟨"Lamp", "192.168.1.9"⟩)] 0 = some "" ∧
    save_config (some (serialize [("aa:aa:aa:aa:aa:aa", ⟨"Lamp", "192.168.1.5"⟩)]))
        [("aa:aa:aa:aa:aa:aa", ⟨"Lamp", "192.168.1.9"⟩)] 0 ≠
      some (serialize [("aa:aa:aa:aa:aa:aa", ⟨"Lamp", "192.168.1.5"⟩)]) := by
  constructor
  · decide
  · decide

/-- C3 as amended: `save_config` overwrites the file in place — `open(..., 'w')`
truncates at once and the new serialisation is then streamed in.  A completed
save leaves the full new snapshot; a save failing after `written` characters
leaves a length-`written` prefix of the **new** serialisation, and the previous
content survives only in the coincidental case where it equals that prefix.
There is no atomic replace. -/
theorem C3_truncate_then_write :
    (∀ (prev : Option String) (reg : Registry),
       save_config_ok prev reg = some (serialize reg)) ∧
    (∀ (prev : String) (reg : Registry) (written : Nat),
       written < (serialize reg).length →
       ∃ out : String, save_config (some prev) reg written = some out ∧
         out.length = written ∧ out.data <+: (serialize reg).data ∧
         (save_config (some prev) reg written = some prev ↔
           prev = ⟨(serialize reg).data.take written⟩)) := by
  constructor
  · intro prev reg
    show some (⟨(serialize reg).data.take (serialize reg).data.length⟩ : String) = _
    rw [List.take_length]
  · intro prev reg written hlt
    refine ⟨⟨(serialize reg).data.take written⟩, rfl, ?_, List.take_prefix written _, ?_⟩
    · show ((serialize reg).data.take written).length = written
      rw [List.length_take]
      exact Nat.min_eq_left (Nat.le_of_lt hlt)
    · constructor
      · intro h
        exact (Option.some.inj h).symm
      · intro h
        rw [h]
        rfl

/-- Witness for the amended C3 at a concrete registry: a completed save
persists the full snapshot, and a save stopping after 0 characters leaves an
empty file that differs from the previous one-device snapshot. -/
theorem C3_truncate_then_write_witness :
    save_config_ok (some "old") [("aa:aa:aa:aa:aa:aa", ⟨"Lamp", "192.168.1.5"⟩)] =
      some (serialize [("aa:aa:aa:aa:aa:aa", ⟨"Lamp", "192.168.1.5"⟩)]) ∧
    ∃ out : String,
      save_config (some "old") [("aa:aa:aa:aa:aa:aa", ⟨"Lamp", "192.168.1.5"⟩)] 0 = some out ∧
        out.length = 0 ∧
        out.data <+: (serialize [("aa:aa:aa:aa:aa:aa", ⟨"Lamp", "192.168.1.5"⟩)]).data ∧
        (save_config (some "old") [("aa:aa:aa:aa:aa:aa", ⟨"Lamp", "192.168.1.5"⟩)] 0 =
            some "old" ↔
          "old" = ⟨(serialize [("aa:aa:aa:aa:aa:aa", ⟨"Lamp", "192.168.1.5"⟩)]).data.take 0⟩) :=
  ⟨C3_truncate_then_write.1 (some "old") [("aa:aa:aa:aa:aa:aa", ⟨"Lamp", "192.168.1.5"⟩)],
   C3_truncate_then_write.2 "old" [("aa:aa:aa:aa:aa:aa", ⟨"Lamp", "192.168.1.5"⟩)] 0
     (by decide)⟩

/-! ## C4: the stored key is the lowercased input, separators preserved -/

/-- Counterexample to C4 as stated: saving with the hyphen-separated MAC
`AA-BB-CC-DD-EE-FF` stores the key `aa-bb-cc-dd-ee-ff` — lowercased but still
hyphen-separated, which is not the canonical lowercase **colon**-separated form
`aa:bb:cc:dd:ee:ff`. -/
theorem C4_counterexample :
    (save_device_manually [] none "192.168.1.5" "AA-BB-CC-DD-EE-FF" "Lamp").devices =
      [("aa-bb-cc-dd-ee-ff", ⟨"Lamp", "192.168.1.5"⟩)] ∧
    specCanonicalMac "AA-BB-CC-DD-EE-FF" = "aa:bb:cc:dd:ee:ff" ∧
    ("aa-bb-cc-dd-ee-ff" : String) ≠ specCanonicalMac "AA-BB-CC-DD-EE-FF" := by
  refine ⟨by decide, by decide, by decide⟩

/-- C4 as amended: a successful manual save stores the record under the
user-supplied MAC **lowercased with its separators preserved as typed**; this
coincides with the spec's canonical colon-separated form exactly when the user
used colons (no hyphen in the input). -/
theorem C4_key_is_lowercased_input (devices : Registry) (file : Option String)
    (ip mac name : String)
    (hip : is_valid_ip ip = true) (hmac : is_valid_mac mac = true)
    (hname : devices.any (fun p => pyLower p.2.name == pyLower name) = false) :
    save_device_manually devices file ip mac name =
      ⟨none, dictInsert devices (pyLower mac) ⟨name, ip⟩,
       save_config_ok file (dictInsert devices (pyLower mac) ⟨name, ip⟩), true⟩ ∧
    ('-' ∉ mac.data → pyLower mac = specCanonicalMac mac) := by
  constructor
  · unfold save_device_manually
    rw [hip, hmac, hname]
    rfl
  · intro hdash
    unfold pyLower specCanonicalMac
    congr 1
    apply List.map_congr_left
    intro c hc
    have : c ≠ '-' := fun h => hdash (h ▸ hc)
    rw [if_neg this]

/-- Witness for the amended C4 at the counterexample's input. -/
theorem C4_key_is_lowercased_input_witness :
    save_device_manually [] none "192.168.1.5" "AA-BB-CC-DD-EE-FF" "Lamp" =
      ⟨none, dictInsert [] (pyLower "AA-BB-CC-DD-EE-FF") ⟨"Lamp", "192.168.1.5"⟩,
       save_config_ok none (dictInsert [] (pyLower "AA-BB-CC-DD-EE-FF")
         ⟨"Lamp", "192.168.1.5"⟩), true⟩ :=
  (C4_key_is_lowercased_input [] none "192.168.1.5" "AA-BB-CC-DD-EE-FF" "Lamp"
    (by decide) (by decide) (by decide)).1

/-! ## C8: duplicate names and what takes precedence -/

/-- Counterexample to C8 as stated: adding a device whose name collides
case-insensitively but whose IP is malformed raises the invalid-IP
`ValueError`, not `DuplicateNameError` — the address checks run first. -/
theorem C8_counterexample :
    (∃ p ∈ ([("aa:aa:aa:aa:aa:aa", ⟨"Lamp", "192.168.1.5"⟩)] : Registry),
       pyLower p.2.name = pyLower "lamp") ∧
    (save_device_manually [("aa:aa:aa:aa:aa:aa", ⟨"Lamp", "192.168.1.5"⟩)] none
        "999.999.999.999" "aa:aa:aa:aa:aa:aa" "lamp").error =
      some (.invalidIp "999.999.999.999") := by
  constructor
  · decide
  · decide

/-- C8 as amended: when the supplied IP and MAC pass validation, adding a
device whose name collides case-insensitively with an existing record raises
`DuplicateNameError` and changes nothing; and whatever the IP and MAC, a
colliding add always raises some error, inserts no record, performs no save and
leaves the persisted file untouched (the address validations merely take
precedence over the duplicate-name check). -/
theorem C8_duplicate_name_rejected (devices : Registry) (file : Option String)
    (ip mac name : String)
    (hcol : ∃ p ∈ devices, pyLower p.2.name = pyLower name) :
    (is_valid_ip ip = true → is_valid_mac mac = true →
      save_device_manually devices file ip mac name =
        ⟨some (.duplicateName name), devices, file, false⟩) ∧
    ((save_device_manually devices file ip mac name).error.isSome ∧
     (save_device_manually devices file ip mac name).devices = devices ∧
     (save_device_manually devices file ip mac name).file = file ∧
     (save_device_manually devices file ip mac name).savedCalled = false) := by
  obtain ⟨p, hp, hpe⟩ := hcol
  have hany : devices.any (fun p => pyLower p.2.name == pyLower name) = true :=
    List.any_eq_true.mpr ⟨p, hp, beq_iff_eq.mpr hpe⟩
  constructor
  · intro hip hmac
    unfold save_device_manually
    rw [hip, hmac, hany]
    rfl
  · unfold save_device_manually
    by_cases hip : is_valid_ip ip
    · by_cases hmac : is_valid_mac mac
      · rw [hip, hmac, hany]
        exact ⟨rfl, rfl, rfl, rfl⟩
      · rw [hip, Bool.eq_false_iff.mpr hmac]
        exact ⟨rfl, rfl, rfl, rfl⟩
    · rw [Bool.eq_false_iff.mpr hip]
      exact ⟨rfl, rfl, rfl, rfl⟩

/-- Witness for the amended C8: a colliding add with valid addresses is
rejected as a duplicate and the registry, file and save flag are untouched. -/
theorem C8_duplicate_name_rejected_witness :
    save_device_manually [("aa:aa:aa:aa:aa:aa", ⟨"Lamp", "192.168.1.5"⟩)] none
        "192.168.1.6" "bb:bb:bb:bb:bb:bb" "LAMP" =
      ⟨some (.duplicateName "LAMP"), [("aa:aa:aa:aa:aa:aa", ⟨"Lamp", "192.168.1.5"⟩)],
       none, false⟩ :=
  (C8_duplicate_name_rejected [("aa:aa:aa:aa:aa:aa", ⟨"Lamp", "192.168.1.5"⟩)] none
    "192.168.1.6" "bb:bb:bb:bb:bb:bb" "LAMP"
    ⟨("aa:aa:aa:aa:aa:aa", ⟨"Lamp", "192.168.1.5"⟩), by decide, by decide⟩).1
    (by decide) (by decide)

/-! ## C9: the language accepted by `is_valid_mac` -/

/-- The regex matcher recognises exactly the declarative MAC shape (for any
positive group count). -/
theorem macGroups_iff (n : Nat) : ∀ cs : List Char,
    macGroups (n + 1) cs = true ↔ MacShapeN (n + 1) cs := by
  induction n with
  | zero =>
    intro cs
    constructor
    · intro h
      rcases cs with _ | ⟨a, _ | ⟨b, _ | ⟨c, rest⟩⟩⟩
      · exact Bool.noConfusion (show false = true from h)
      · exact Bool.noConfusion (show false = true from h)
      · rw [show macGroups 1 [a, b] = (isHexDigit a && isHexDigit b) from rfl,
          Bool.and_eq_true] at h
        refine ⟨[[a, b]], [], rfl, ?_, rfl, ?_, rfl⟩
        · intro p hp
          rw [List.mem_singleton] at hp
          subst hp
          refine ⟨rfl, ?_⟩
          intro c hc
          simp only [List.mem_cons, List.not_mem_nil, or_false] at hc
          rcases hc with rfl | rfl
          · exact h.1
          · exact h.2
        · intro c hc
          exact absurd hc (List.not_mem_nil c)
      · exact Bool.noConfusion (show false = true from h)
    · rintro ⟨g, seps, hg, hgp, hs, hsp, he⟩
      obtain ⟨p, rfl⟩ := List.length_eq_one.mp hg
      rw [List.length_eq_zero] at hs
      subst hs
      obtain ⟨hp2, hphex⟩ := hgp p (List.mem_singleton_self p)
      obtain ⟨a, b, rfl⟩ := List.length_eq_two.mp hp2
      subst he
      show (isHexDigit a && isHexDigit b) = true
      rw [Bool.and_eq_true]
      exact ⟨hphex a (by simp), hphex b (by simp)⟩
  | succ n ih =>
    intro cs
    constructor
    · intro h
      rcases cs with _ | ⟨a, _ | ⟨b, _ | ⟨s, rest⟩⟩⟩
      · exact Bool.noConfusion (show false = true from h)
      · exact Bool.noConfusion (show false = true from h)
      · exact Bool.noConfusion (show false = true from h)
      · rw [show macGroups (n + 1 + 1) (a :: b :: s :: rest) =
            (isHexDigit a && isHexDigit b && (s == ':' || s == '-') &&
              macGroups (n + 1) rest) from rfl] at h
        simp only [Bool.and_eq_true, Bool.or_eq_true, beq_iff_eq] at h
        obtain ⟨⟨⟨ha, hb⟩, hsep⟩, hrest⟩ := h
        obtain ⟨g, seps, hg, hgp, hs, hsp, he⟩ := (ih rest).mp hrest
        obtain ⟨p, g', rfl⟩ : ∃ p t, g = p :: t := by
          cases g with
          | nil => simp only [List.length_nil] at hg; omega
          | cons p t => exact ⟨p, t, rfl⟩
        refine ⟨[a, b] :: p :: g', s :: seps, ?_, ?_, ?_, ?_, ?_⟩
        · simp only [List.length_cons] at hg ⊢
          omega
        · intro q hq
          simp only [List.mem_cons] at hq
          rcases hq with rfl | hq
          · refine ⟨rfl, ?_⟩
            intro c hc
            simp only [List.mem_cons, List.not_mem_nil, or_false] at hc
            rcases hc with rfl | rfl
            · exact ha
            · exact hb
          · exact hgp q (List.mem_cons.mpr hq)
        · simp only [List.length_cons] at hs ⊢
          omega
        · intro c hc
          simp only [List.mem_cons] at hc
          rcases hc with rfl | hc
          · exact hsep
          · exact hsp c hc
        · show a :: b :: s :: rest = [a, b] ++ s :: joinGroups (p :: g') seps
          rw [← he]
          rfl
    · rintro ⟨g, seps, hg, hgp, hs, hsp, he⟩
      obtain ⟨p, g', rfl⟩ : ∃ p t, g = p :: t := by
        cases g with
        | nil => simp only [List.length_nil] at hg; omega
        | cons p t => exact ⟨p, t, rfl⟩
      obtain ⟨q, g'', rfl⟩ : ∃ q t, g' = q :: t := by
        cases g' with
        | nil => simp only [List.length_cons, List.length_nil] at hg; omega
        | cons q t => exact ⟨q, t, rfl⟩
      obtain ⟨s, seps', rfl⟩ : ∃ s t, seps = s :: t := by
        cases seps with
        | nil => simp only [List.length_nil] at hs; omega
        | cons s t => exact ⟨s, t, rfl⟩
      obtain ⟨hp2, hphex⟩ := hgp p (by simp)
      obtain ⟨a, b, rfl⟩ := List.length_eq_two.mp hp2
      subst he
      show (isHexDigit a && isHexDigit b && (s == ':' || s == '-') &&
        macGroups (n + 1) (joinGroups (q :: g'') seps')) = true
      simp only [Bool.and_eq_true, Bool.or_eq_true, beq_iff_eq]
      refine ⟨⟨⟨hphex a (by simp), hphex b (by simp)⟩, hsp s (by simp)⟩, ?_⟩
      refine (ih _).mpr ⟨q :: g'', seps', ?_, ?_, ?_, ?_, rfl⟩
      · simp only [List.length_cons] at hg ⊢
        omega
      · intro r hr
        exact hgp r (List.mem_cons_of_mem _ hr)
      · simp only [List.length_cons] at hs ⊢
        omega
      · intro c hc
        exact hsp c (List.mem_cons_of_mem _ hc)

theorem macGroups6_iff (cs : List Char) : macGroups 6 cs = true ↔ MacShape cs :=
  macGroups_iff 5 cs

/-- Counterexample to C9 as stated: `is_valid_mac` accepts
`"aa:bb:cc:dd:ee:ff\n"`, a string with a trailing newline that does **not**
consist of six 2-hex-digit groups and separators — Python's `$` anchor also
matches just before a newline that ends the string. -/
theorem C9_counterexample :
    is_valid_mac "aa:bb:cc:dd:ee:ff\n" = true ∧
    ¬ MacShape "aa:bb:cc:dd:ee:ff\n".data := by
  constructor
  · decide
  · intro h
    exact absurd ((macGroups6_iff _).mpr h) (by decide)

/-- C9 as amended: `is_valid_mac` returns true for exactly the strings that
consist of six 2-hex-digit groups joined by five `:` or `-` separators (each
separator independently, so mixed separators are accepted), **optionally
followed by one trailing newline**; every other string — wrong group count,
wrong digit count in a group, wrong separator — is rejected. -/
theorem C9_mac_language (s : String) :
    is_valid_mac s = true ↔
      (MacShape s.data ∨ ∃ l : List Char, s.data = l ++ ['\n'] ∧ MacShape l) := by
  constructor
  · intro h
    rw [is_valid_mac, pyDollarMatch, Bool.or_eq_true] at h
    rcases h with h | h
    · exact Or.inl ((macGroups6_iff _).mp h)
    · rw [Bool.and_eq_true, beq_iff_eq] at h
      right
      exact ⟨s.data.dropLast,
        (List.dropLast_append_getLast? '\n' (Option.mem_def.mpr h.1)).symm,
        (macGroups6_iff _).mp h.2⟩
  · intro h
    rw [is_valid_mac, pyDollarMatch, Bool.or_eq_true]
    rcases h with h | ⟨l, hl, hshape⟩
    · exact Or.inl ((macGroups6_iff _).mpr h)
    · right
      rw [Bool.and_eq_true, beq_iff_eq]
      constructor
      · rw [hl]
        exact List.getLast?_concat l
      · rw [hl, List.dropLast_concat]
        exact (macGroups6_iff _).mpr hshape

end Lifx
